import Mathlib

/-!
Verification of the Oracle backend adapter (`ibis/backends/oracle/__init__.py`)
via a shallow embedding in Lean 4.

Modelling conventions:
* `metadata_row_to_type` (lines 38-76) is a pure function and is embedded
  directly.  The external `type_mapper.from_string` collaborator is modelled
  by the `DataType.fromString` constructor, which records the delegation
  together with the arguments passed through.
* Stateful methods that talk to the database connection are embedded as
  functions producing an explicit trace of connection-level actions
  (`Act` / `DDL`) plus an outcome; whether an individual statement raises is
  supplied as an explicit Boolean parameter, covering every exception path of
  the Python `try`/`except`/`else`/`finally` blocks.
* The catalog visible to the session is an association list from table name
  to schema; Oracle column names within one table are unique, so a schema is
  an ordered association list from column name to `DataType`.
-/

/-- Logical Ibis data types, restricted to the constructors the Oracle
adapter produces.  `fromString` stands for delegation to the external
`type_mapper.from_string(type_string, nullable=nullable)` lookup. -/
inductive DataType where
  | Int64 (nullable : Bool)
  | Decimal (precision : Int) (scale : Int) (nullable : Bool)
  | fromString (type_string : String) (nullable : Bool)
deriving DecidableEq, Repr

/-- Python truthiness test `not scale` on an optional integer: `None` and `0`
are falsy (source line 48). -/
def scaleFalsy : Option Int → Bool
  | none => true
  | some n => n == 0

/-- Python `scale is not None and scale > 0` (source line 70). -/
def scalePos : Option Int → Bool
  | none => false
  | some s => decide (0 < s)

/-- Embedding of `metadata_row_to_type` (source lines 38-76).  The guard of
each `if` matches the corresponding Python condition in order; in the
`Decimal` branch the guard guarantees `precision` and `scale` are `some`, so
`Option.getD` extracts exactly the values the Python code passes on. -/
def metadata_row_to_type (type_string : String) (precision scale : Option Int)
    (nullable : Bool) : DataType :=
  if type_string == "NUMBER" && precision.isNone && scaleFalsy scale then
    .Int64 nullable
  else if precision.isNone && scale == some 0 then
    .Int64 nullable
  else if type_string == "NUMBER" && precision.isSome && scale == some 0 then
    .Int64 nullable
  else if type_string == "NUMBER" && precision.isSome && scalePos scale then
    .Decimal (precision.getD 0) (scale.getD 0) nullable
  else
    .fromString type_string nullable

/-- C1: for type name "NUMBER", absent precision with absent or zero scale
yields `Int64`, present precision with zero scale yields `Int64`, present
precision with positive scale yields `Decimal precision scale`; the nullable
flag of the result equals the nullable argument in every branch. -/
theorem number_rows_resolve_as_claimed (p s : Int) (nb : Bool) :
    metadata_row_to_type "NUMBER" none none nb = .Int64 nb ∧
    metadata_row_to_type "NUMBER" none (some 0) nb = .Int64 nb ∧
    metadata_row_to_type "NUMBER" (some p) (some 0) nb = .Int64 nb ∧
    (0 < s → metadata_row_to_type "NUMBER" (some p) (some s) nb =
      .Decimal p s nb) := by
  refine ⟨rfl, rfl, by simp [metadata_row_to_type, scaleFalsy], ?_⟩
  intro hs
  have h0 : ¬(s = 0) := by omega
  simp [metadata_row_to_type, scaleFalsy, scalePos, h0, hs]

theorem number_rows_resolve_as_claimed_witness :
    metadata_row_to_type "NUMBER" none none true = .Int64 true ∧
    metadata_row_to_type "NUMBER" none (some 0) true = .Int64 true ∧
    metadata_row_to_type "NUMBER" (some 10) (some 0) true = .Int64 true ∧
    (0 < (2 : Int) → metadata_row_to_type "NUMBER" (some 10) (some 2) true =
      .Decimal 10 2 true) :=
  number_rows_resolve_as_claimed 10 2 true

/-- C2 counterexample: a non-"NUMBER" type name with precision absent and
scale zero is resolved by the numeric special-casing to `Int64`, not by
delegation to the name lookup — the second branch of the resolver (source
line 53) does not inspect the type name. -/
theorem non_number_zero_scale_not_delegated :
    metadata_row_to_type "TIMESTAMP(0)" none (some 0) true = .Int64 true ∧
    DataType.Int64 true ≠ .fromString "TIMESTAMP(0)" true := by
  refine ⟨?_, by decide⟩
  simp [metadata_row_to_type, scaleFalsy]

/-- C2 amended: every row matched by none of the four numeric branches
delegates to `type_mapper.from_string` with the nullable flag passed through;
but the second branch (precision absent, scale zero) applies to every type
name, so a non-"NUMBER" row with precision absent and scale zero resolves to
`Int64` via the numeric special-casing, not via the name lookup. -/
theorem unmatched_rows_delegate_to_from_string (ts : String)
    (p s : Option Int) (nb : Bool)
    (h1 : (ts == "NUMBER" && p.isNone && scaleFalsy s) = false)
    (h2 : (p.isNone && s == some 0) = false)
    (h3 : (ts == "NUMBER" && p.isSome && s == some 0) = false)
    (h4 : (ts == "NUMBER" && p.isSome && scalePos s) = false) :
    metadata_row_to_type ts p s nb = .fromString ts nb ∧
    metadata_row_to_type ts none (some 0) nb = .Int64 nb := by
  constructor
  · simp only [metadata_row_to_type, h1, h2, h3, h4, if_false, Bool.false_eq_true]
  · by_cases hts : ts = "NUMBER" <;>
      simp [metadata_row_to_type, scaleFalsy, hts]

theorem unmatched_rows_delegate_to_from_string_witness :
    metadata_row_to_type "VARCHAR2" (some 5) none true =
      .fromString "VARCHAR2" true ∧
    metadata_row_to_type "VARCHAR2" none (some 0) true = .Int64 true :=
  unmatched_rows_delegate_to_from_string "VARCHAR2" (some 5) none true
    (by decide) (by decide) (by decide) (by decide)

/-- Statements the adapter executes through a cursor, at the granularity the
claims need. -/
inductive Stmt where
  | createView
  | metadataQuery
  | dropView
  | userQuery
deriving DecidableEq, Repr

/-- Connection-level actions, in the order they happen. -/
inductive Act where
  | openCursor
  | exec (s : Stmt)
  | commit
  | rollback
  | closeCursor
deriving DecidableEq, Repr

/-- Embedding of the `begin` context manager (source lines 208-220): given
the body's action trace and whether the body raised, a fresh cursor is
opened, the body runs, the `except` arm rolls back and re-raises while the
`else` arm commits, and the `finally` arm closes the cursor afterwards in
both cases.  The returned Boolean is whether the whole block raises. -/
def begin_run (body : List Act × Bool) : List Act × Bool :=
  (Act.openCursor :: body.1 ++
    (if body.2 then [Act.rollback] else [Act.commit]) ++ [Act.closeCursor],
   body.2)

/-- Body of the `with self.begin() as con:` block of
`_get_schema_using_query` (source lines 577-583): execute the CREATE VIEW;
if it raises, nothing further runs in the body; otherwise the metadata query
runs inside `try` and the `finally` arm executes the DROP VIEW whether or not
the metadata query (or the drop itself) raises.  `failCreate`, `failMeta` and
`failDrop` say which statement executions raise. -/
def introspect_body (failCreate failMeta failDrop : Bool) : List Act × Bool :=
  if failCreate then
    ([Act.exec .createView], true)
  else
    ([Act.exec .createView, Act.exec .metadataQuery, Act.exec .dropView],
     failMeta || failDrop)

/-- The statement-execution part of `_get_schema_using_query`
(source lines 577-583): the introspection body run under `begin`. -/
def get_schema_using_query_run (failCreate failMeta failDrop : Bool) :
    List Act × Bool :=
  begin_run (introspect_body failCreate failMeta failDrop)

/-- C3: once the CREATE VIEW has succeeded, the DROP VIEW is executed on
every exit path of `_get_schema_using_query` — in particular also when the
metadata catalog query raises (and even when the drop itself then raises,
it is still attempted). -/
theorem drop_view_on_every_exit_path (failMeta failDrop : Bool) :
    Act.exec Stmt.dropView ∈
      (get_schema_using_query_run false failMeta failDrop).1 := by
  cases failMeta <;> cases failDrop <;> decide

/-- C4: for every body run under `begin`, a fresh cursor is acquired first;
on normal return of the body the connection is committed and no exception
escapes; if the body raises, the connection is rolled back and the exception
is re-raised; and the cursor close is the last action on every exit path. -/
theorem begin_commit_rollback_close (tr : List Act) (raised : Bool) :
    (begin_run (tr, raised)).1.head? = some Act.openCursor ∧
    (raised = false →
      Act.commit ∈ (begin_run (tr, raised)).1 ∧
      (begin_run (tr, raised)).2 = false) ∧
    (raised = true →
      Act.rollback ∈ (begin_run (tr, raised)).1 ∧
      (begin_run (tr, raised)).2 = true) ∧
    (begin_run (tr, raised)).1.getLast? = some Act.closeCursor := by
  refine ⟨rfl, ?_, ?_, ?_⟩
  · rintro rfl
    exact ⟨by simp [begin_run], rfl⟩
  · rintro rfl
    exact ⟨by simp [begin_run], rfl⟩
  · show (Act.openCursor ::
        ((tr ++ (if raised then [Act.rollback] else [Act.commit])) ++
          [Act.closeCursor])).getLast? = some Act.closeCursor
    rw [← List.cons_append]
    exact (List.getLast?_append_cons _ Act.closeCursor []).trans rfl

theorem begin_commit_rollback_close_witness :
    ((begin_run ([Act.exec .userQuery], true)).1.head? = some Act.openCursor ∧
    (true = false →
      Act.commit ∈ (begin_run ([Act.exec .userQuery], true)).1 ∧
      (begin_run ([Act.exec .userQuery], true)).2 = false) ∧
    (true = true →
      Act.rollback ∈ (begin_run ([Act.exec .userQuery], true)).1 ∧
      (begin_run ([Act.exec .userQuery], true)).2 = true) ∧
    (begin_run ([Act.exec .userQuery], true)).1.getLast? =
      some Act.closeCursor) :=
  begin_commit_rollback_close [Act.exec .userQuery] true

/-- Outcome of `raw_sql`: either the (still open) cursor is returned to the
caller, or the original exception propagates. -/
inductive RawSqlOutcome where
  | returnedCursor
  | raised
deriving DecidableEq, Repr

/-- Embedding of `raw_sql` (source lines 227-242): a cursor is opened and the
query executed inside `try`; the `except` arm rolls back, closes the cursor
and re-raises, while the `else` arm commits and returns the open cursor.
`failExec` says whether `cursor.execute` raises. -/
def raw_sql_run (failExec : Bool) : List Act × RawSqlOutcome :=
  if failExec then
    ([Act.openCursor, Act.exec .userQuery, Act.rollback, Act.closeCursor],
     .raised)
  else
    ([Act.openCursor, Act.exec .userQuery, Act.commit], .returnedCursor)

/-- C5: when execution succeeds, `raw_sql` commits immediately and returns
the cursor without closing it; when execution raises, the connection is
rolled back, the cursor is closed, and the exception propagates to the
caller rather than being swallowed. -/
theorem raw_sql_autocommit_or_rollback :
    ((raw_sql_run false).2 = .returnedCursor ∧
      Act.commit ∈ (raw_sql_run false).1 ∧
      Act.rollback ∉ (raw_sql_run false).1 ∧
      Act.closeCursor ∉ (raw_sql_run false).1) ∧
    ((raw_sql_run true).2 = .raised ∧
      Act.rollback ∈ (raw_sql_run true).1 ∧
      Act.commit ∉ (raw_sql_run true).1 ∧
      Act.closeCursor ∈ (raw_sql_run true).1) := by
  decide

/-- One row of the column-metadata catalog query of `get_schema`
(source lines 340-354): column name, declared type name, numeric precision,
numeric scale, and the decoded nullability flag, in catalog column order. -/
structure MetaRow where
  column_name : String
  data_type : String
  data_precision : Option Int
  data_scale : Option Int
  nullable : Bool
deriving DecidableEq, Repr

/-- Resolve one catalog row through the type resolver, as the dictionary
comprehension of `get_schema` does (source lines 362-371). -/
def resolve_row (r : MetaRow) : String × DataType :=
  (r.column_name,
   metadata_row_to_type r.data_type r.data_precision r.data_scale r.nullable)

/-- Embedding of `get_schema` (source lines 335-373) after the catalog query
has produced `rows`: zero rows raise `IbisError "Table not found: ..."`,
otherwise every row is passed through `metadata_row_to_type` and an ordered
schema is built.  Column names within one Oracle table are unique, so the
Python dict comprehension is order- and content-equivalent to the list map. -/
def get_schema (name : String) (rows : List MetaRow) :
    Except String (List (String × DataType)) :=
  if rows.isEmpty then
    .error ("Table not found: " ++ name)
  else
    .ok (rows.map resolve_row)

/-- C6: `get_schema` raises the not-found error exactly when the catalog
query returns zero rows (a zero-column result is indistinguishable from an
absent table); when rows are returned, each one goes through the type
resolver and the ordered schema of the rows is returned. -/
theorem get_schema_not_found_iff_zero_rows (name : String)
    (rows : List MetaRow) :
    (rows = [] → get_schema name rows = .error ("Table not found: " ++ name)) ∧
    (rows ≠ [] → get_schema name rows = .ok (rows.map resolve_row)) := by
  constructor
  · rintro rfl
    rfl
  · intro h
    simp [get_schema, h]

theorem get_schema_not_found_iff_zero_rows_witness :
    (([⟨"ID", "NUMBER", none, none, false⟩] : List MetaRow) = [] →
      get_schema "ORDERS" [⟨"ID", "NUMBER", none, none, false⟩] =
        .error ("Table not found: " ++ "ORDERS")) ∧
    (([⟨"ID", "NUMBER", none, none, false⟩] : List MetaRow) ≠ [] →
      get_schema "ORDERS" [⟨"ID", "NUMBER", none, none, false⟩] =
        .ok ([⟨"ID", "NUMBER", none, none, false⟩].map resolve_row)) :=
  get_schema_not_found_iff_zero_rows "ORDERS"
    [⟨"ID", "NUMBER", none, none, false⟩]

/-- The data source name finally handed to `oracledb.connect`
(source line 154): either the caller's explicit `dsn`, or the one built by
the external `oracledb.makedsn(host, port, service_name=..., sid=...)`
(source line 147), recorded with the arguments passed to it. -/
inductive DSN where
  | explicit (dsn : String)
  | made (host : String) (port : Nat) (service_name : Option String)
      (sid : Option String)
deriving DecidableEq, Repr

/-- Embedding of the connection-argument logic of `do_connect`
(source lines 88-154).  The first component records whether the
dsn-overrides warning was emitted (lines 129-134); the second is `.error ()`
when the mutual-exclusion check raises `IbisInputError` (lines 136-141) —
in which case `oracledb.connect` is never reached — and otherwise `.ok` of
the DSN passed to `oracledb.connect`, after the `database`-to-`service_name`
defaulting of lines 143-144 and the makedsn fallback of lines 146-147. -/
def do_connect (host : String) (port : Nat)
    (database sid service_name dsn : Option String) :
    Bool × Except Unit DSN :=
  let warned := dsn.isSome &&
    (database.isSome || sid.isSome || service_name.isSome)
  if service_name.isSome && database.isSome then
    (warned, .error ())
  else
    let sn := if service_name.isNone && database.isSome then database
              else service_name
    match dsn with
    | some d => (warned, .ok (DSN.explicit d))
    | none => (warned, .ok (DSN.made host port sn sid))

/-- C9: whenever both `database` and `service_name` are non-null,
`do_connect` raises the configuration error and the `oracledb.connect` call
is never reached, whatever the other arguments are. -/
theorem both_service_name_and_database_error (host : String) (port : Nat)
    (db sn : String) (sid dsn : Option String) :
    (do_connect host port (some db) sid (some sn) dsn).2 = .error () := by
  simp [do_connect]

/-- C10: a non-null `dsn` does not bypass the mutual-exclusion check: with
`database`, `service_name` and `dsn` all supplied, the dsn-overrides warning
is emitted and the configuration error is still raised before any connection
attempt. -/
theorem dsn_does_not_bypass_exclusion_check (host : String) (port : Nat)
    (db sn d : String) (sid : Option String) :
    do_connect host port (some db) sid (some sn) (some d) =
      (true, .error ()) := by
  simp [do_connect]

/-- DDL-level statements issued by `create_table`, `drop_table` and
`_register_in_memory_table`. -/
inductive DDL where
  | create (name : String)
  | insert (name : String)
  | truncate (name : String)
  | drop (name : String)
  | rename (oldName newName : String)
deriving DecidableEq, Repr

/-- A table schema: ordered association of column name to type. -/
abbrev SchemaL := List (String × DataType)

/-- The catalog visible to the session: ordered association of table name
to schema. -/
abbrev Catalog := List (String × SchemaL)

/-- The schema the catalog holds under a table name, if any. -/
def lookupTable (cat : Catalog) (n : String) : Option SchemaL :=
  (cat.find? (fun e => e.1 == n)).map (·.2)

/-- Catalog effect of dropping table `n`: every entry named `n` is gone. -/
def removeTable (cat : Catalog) (n : String) : Catalog :=
  cat.filter (fun e => e.1 != n)

/-- Catalog effect of `ALTER TABLE oldName RENAME TO newName`. -/
def renameTable (cat : Catalog) (oldName newName : String) : Catalog :=
  cat.map (fun e => if e.1 == oldName then (newName, e.2) else e)

/-- Embedding of `drop_table` with `force=True` as `create_table` invokes it
(source lines 462-465 and 482-503): a TRUNCATE whose engine errors are
suppressed, then a forced DROP that tolerates absence; the catalog simply
loses the entry if it had one. -/
def drop_table (cat : Catalog) (name : String) : Catalog × List DDL :=
  (removeTable cat name, [DDL.truncate name, DDL.drop name])

/-- Embedding of `create_table` (source lines 375-480) at catalog
granularity.  `obj`, when present, stands for a row source with the given
schema (its compilation to SQL is the external builder's concern; the
`DDL.insert` action records the INSERT into the working table).  The first
`.error` is the `ValueError` of line 413; the second is the engine error
raised by CREATE TABLE when the working name already exists.  With
`overwrite`, the working name is the generated `temp_name` (line 437), the
prior public `name` is dropped with `force=True` (lines 462-465) and the
working table is renamed to `name` (lines 466-468). -/
def create_table (cat : Catalog) (name : String) (obj : Option SchemaL)
    (schema : Option SchemaL) (overwrite : Bool) (temp_name : String) :
    Except Unit (Catalog × List DDL) :=
  if obj.isNone && schema.isNone then
    .error ()
  else
    let working := if overwrite then temp_name else name
    let eff := match schema with
      | some s => s
      | none => obj.getD []
    if (lookupTable cat working).isSome then
      .error ()
    else
      let cat1 := cat ++ [(working, eff)]
      let tr1 := DDL.create working ::
        (if obj.isSome then [DDL.insert working] else [])
      if overwrite then
        let d := drop_table cat1 name
        .ok (renameTable d.1 working name,
          tr1 ++ d.2 ++ [DDL.rename working name])
      else
        .ok (cat1, tr1)

/-- C7 counterexample: `create_table` with `overwrite=True`, an explicit
schema only, and a name that does not exist succeeds — but a (forced,
tolerated) DROP of the absent prior table IS attempted, contrary to the
claim that no drop is attempted. -/
theorem overwrite_of_absent_name_attempts_drop :
    create_table [] "T" none (some [("X", DataType.Int64 true)]) true
        "tmp_xyz" =
      .ok ([("T", [("X", DataType.Int64 true)])],
        [DDL.create "tmp_xyz", DDL.truncate "T", DDL.drop "T",
          DDL.rename "tmp_xyz" "T"]) ∧
    DDL.drop "T" ∈ [DDL.create "tmp_xyz", DDL.truncate "T", DDL.drop "T",
      DDL.rename "tmp_xyz" "T"] := by
  exact ⟨rfl, by decide⟩

/-- C7 amended: calling `create_table` with `overwrite=True` for a name that
does not yet exist, supplying only an explicit schema, succeeds; a forced
drop of the (absent) prior table is attempted but is a tolerated no-op; and
the public name ends up with exactly the supplied schema. -/
theorem create_table_overwrite_absent_name (cat : Catalog)
    (name tmp : String) (sch : SchemaL)
    (hname : lookupTable cat name = none)
    (htmp : lookupTable cat tmp = none)
    (hne : name ≠ tmp) :
    create_table cat name none (some sch) true tmp =
      .ok (renameTable (removeTable (cat ++ [(tmp, sch)]) name) tmp name,
        [DDL.create tmp, DDL.truncate name, DDL.drop name,
          DDL.rename tmp name]) ∧
    lookupTable (renameTable (removeTable (cat ++ [(tmp, sch)]) name)
      tmp name) name = some sch := by
  have hne' : tmp ≠ name := fun h => hne h.symm
  have hfname : cat.find? (fun e => e.1 == name) = none := by
    simpa [lookupTable, Option.map_eq_none'] using hname
  have hftmp : cat.find? (fun e => e.1 == tmp) = none := by
    simpa [lookupTable, Option.map_eq_none'] using htmp
  constructor
  · simp [create_table, drop_table, htmp]
  · have hsplit : removeTable (cat ++ [(tmp, sch)]) name
        = removeTable cat name ++ [(tmp, sch)] := by
      simp [removeTable, List.filter_append, hne']
    have hren : renameTable (removeTable cat name ++ [(tmp, sch)]) tmp name
        = renameTable (removeTable cat name) tmp name ++ [(name, sch)] := by
      simp [renameTable, List.map_append]
    have hpre : ∀ e ∈ renameTable (removeTable cat name) tmp name,
        ¬((fun e => e.1 == name) e = true) := by
      intro e he
      simp only [renameTable, List.mem_map] at he
      obtain ⟨x, hx, rfl⟩ := he
      have hxcat : x ∈ cat := (List.mem_filter.mp hx).1
      have hxtmp : ¬(x.1 == tmp) = true := List.find?_eq_none.mp hftmp x hxcat
      have hxname : ¬(x.1 == name) = true := List.find?_eq_none.mp hfname x hxcat
      simp only [Bool.not_eq_true] at hxtmp
      simp [hxtmp, hxname]
    rw [hsplit, hren]
    simp only [lookupTable, List.find?_append]
    rw [List.find?_eq_none.mpr hpre]
    simp

theorem create_table_overwrite_absent_name_witness :
    (create_table [] "T" none (some [("X", DataType.Int64 true)]) true
        "oracle_tmp" =
      .ok (renameTable (removeTable ([] ++
            [("oracle_tmp", [("X", DataType.Int64 true)])]) "T")
          "oracle_tmp" "T",
        [DDL.create "oracle_tmp", DDL.truncate "T", DDL.drop "T",
          DDL.rename "oracle_tmp" "T"]) ∧
    lookupTable (renameTable (removeTable ([] ++
        [("oracle_tmp", [("X", DataType.Int64 true)])]) "T")
      "oracle_tmp" "T") "T" = some [("X", DataType.Int64 true)]) :=
  create_table_overwrite_absent_name [] "T" "oracle_tmp"
    [("X", DataType.Int64 true)] rfl rfl (by decide)

/-- Session state seen by `_register_in_memory_table`: the names visible to
`list_tables()` (tables and views owned by the session's user, which a
CREATE immediately extends) and the names registered with `atexit` for
cleanup. -/
structure Session where
  tables : List String
  cleanups : List String
deriving DecidableEq, Repr

/-- Embedding of `_register_in_memory_table` (source lines 505-531).
`name` is the row-source identity `op.name`; `nChunks` is the number of
128-row chunks of the operand's data, each issued as one `executemany`
INSERT.  Only if the name is not already listed does the method create the
temporary table and insert the data (inside one `begin` scope); in both
cases an `atexit` cleanup for the name is registered (line 531). -/
def register_in_memory_table (s : Session) (name : String) (nChunks : Nat) :
    Session × List DDL :=
  if name ∈ s.tables then
    ({ s with cleanups := s.cleanups ++ [name] }, [])
  else
    ({ tables := s.tables ++ [name], cleanups := s.cleanups ++ [name] },
     DDL.create name :: List.replicate nChunks (DDL.insert name))

/-- C8: materializing the same row-source identity twice in one session
performs exactly one CREATE/INSERT sequence — the first call issues the
CREATE and the chunked INSERTs, the second call issues no DDL at all — and
both calls leave the same materialized table registered. -/
theorem register_in_memory_table_idempotent (s : Session) (name : String)
    (n m : Nat) (h : name ∉ s.tables) :
    (register_in_memory_table s name n).2 =
      DDL.create name :: List.replicate n (DDL.insert name) ∧
    (register_in_memory_table
      (register_in_memory_table s name n).1 name m).2 = [] ∧
    name ∈ (register_in_memory_table s name n).1.tables ∧
    (register_in_memory_table
        (register_in_memory_table s name n).1 name m).1.tables =
      (register_in_memory_table s name n).1.tables := by
  have h2 : name ∈ s.tables ++ [name] :=
    List.mem_append_right _ (List.mem_singleton.mpr rfl)
  refine ⟨?_, ?_, ?_, ?_⟩ <;>
    simp [register_in_memory_table, h, h2]

theorem register_in_memory_table_idempotent_witness :
    (register_in_memory_table ⟨[], []⟩ "ibis_memtable" 2).2 =
      DDL.create "ibis_memtable" ::
        List.replicate 2 (DDL.insert "ibis_memtable") ∧
    (register_in_memory_table
      (register_in_memory_table ⟨[], []⟩ "ibis_memtable" 2).1
        "ibis_memtable" 2).2 = [] ∧
    "ibis_memtable" ∈
      (register_in_memory_table ⟨[], []⟩ "ibis_memtable" 2).1.tables ∧
    (register_in_memory_table
        (register_in_memory_table ⟨[], []⟩ "ibis_memtable" 2).1
          "ibis_memtable" 2).1.tables =
      (register_in_memory_table ⟨[], []⟩ "ibis_memtable" 2).1.tables :=
  register_in_memory_table_idempotent ⟨[], []⟩ "ibis_memtable" 2 2
    (by decide)
